import Mathlib

/-!
Verification development for the CRC predictive-modelling service
(`src/app.py`).  The numerical pipeline of the source is shallowly
embedded over the real numbers: the Paterson baseline-hazard model,
the personalized and conditional risk functions, the alpha composer,
the SEER incidence-table lookup, the bisection calibrator and the
top-level predict operation.  Python floats are modelled as reals;
Python exceptions (the uncovered-age `ValueError`) are modelled with
`Option`.
-/

namespace CRC

noncomputable section

/-! ### Part 1: Paterson model constants (src/app.py lines 26-52) -/

def N : ℝ := 1e8

def u : ℝ := 1.25e-8

def n_APC : ℝ := 604

def n_TP53 : ℝ := 73

def n_KRAS : ℝ := 20

def r_APC : ℝ := n_APC * u

def r_TP53 : ℝ := n_TP53 * u

def r_KRAS : ℝ := n_KRAS * u

def r_LOH : ℝ := 1.36e-4

def b1 : ℝ := 0.20

def b2 : ℝ := 0.07

def b12 : ℝ := b1 + b2

def c1 : ℝ := 5.88

def c2 : ℝ := 3.6

def c : ℝ := c1 * c2

/-- The constant `A` computed inside `baseline_hazard` (src/app.py lines 64-71). -/
def A : ℝ :=
  c * N * r_APC * r_TP53 * r_KRAS * (r_LOH ^ 2) *
    (1 / (b12 ^ 3 * (b12 - b1)) + 1 / (b12 ^ 3 * (b12 - b2)) +
      1 / (b12 ^ 2 * (b12 - b2) ^ 2))

/-! ### Part 2: baseline hazard and risk (src/app.py lines 58-85) -/

/-- `baseline_hazard` (src/app.py lines 58-77): `H0 = A * age^2 * exp(b12*age)`,
capped at 50 to avoid numerical overflow in `exp(-H0)`. -/
def baseline_hazard (age : ℝ) : ℝ :=
  let H0 := A * age ^ 2 * Real.exp (b12 * age)
  if H0 > 50 then 50.0 else H0

/-- `paterson_baseline_risk` (src/app.py lines 79-85). -/
def paterson_baseline_risk (age : ℝ) : ℝ :=
  1 - Real.exp (-(baseline_hazard age))

/-! ### Part 3: coefficient table and alpha composition (src/app.py lines 91-131)

The coefficient CSV is loaded by excluded I/O code; per the data model it is a
mapping from the six recognized feature names to reals.  The same shape serves
for the clinical-scale table and for a patient's feature dict. -/

structure FeatureMap where
  TP53_mut : ℝ
  APC_mut : ℝ
  MMR_defect : ℝ
  KRAS_mut : ℝ
  BMI : ℝ
  Sex_bin : ℝ

/-- `clinical_scale` (src/app.py lines 97-104). -/
def clinical_scale : FeatureMap :=
  ⟨0.5, 1.0, 1.0, 0.3, 0.2, 0.1⟩

/-- `norm_coeff = coeff.abs() / ref_coef` with `ref_coef = coeff["APC_mut"]`
(src/app.py lines 112-114): every coefficient's absolute value divided by the
(signed) APC coefficient. -/
def norm_coeff (coeff : FeatureMap) : FeatureMap :=
  ⟨|coeff.TP53_mut| / coeff.APC_mut, |coeff.APC_mut| / coeff.APC_mut,
    |coeff.MMR_defect| / coeff.APC_mut, |coeff.KRAS_mut| / coeff.APC_mut,
    |coeff.BMI| / coeff.APC_mut, |coeff.Sex_bin| / coeff.APC_mut⟩

/-- `compute_alpha` (src/app.py lines 106-131).  The Python loop walks the
patient dict (keys BMI, Sex_bin, KRAS_mut, TP53_mut, APC_mut, MMR_defect, all
present in the coefficient index), accumulating capped log-space
contributions, then exponentiates and clamps to [0.01, 5.0]. -/
def compute_alpha (coeff : FeatureMap) (patient_features : FeatureMap)
    (log_alpha_base : ℝ) : ℝ :=
  let nc := norm_coeff coeff
  let bmi_contrib :=
    if patient_features.BMI > 25 then
      min (clinical_scale.BMI * nc.BMI * (patient_features.BMI - 25)) 1.0
    else 0
  let sex_contrib :=
    if patient_features.Sex_bin = 0 then
      min (clinical_scale.Sex_bin * nc.Sex_bin) 0.3
    else 0
  let kras_contrib := min (clinical_scale.KRAS_mut * nc.KRAS_mut * patient_features.KRAS_mut) 1.0
  let tp53_contrib := min (clinical_scale.TP53_mut * nc.TP53_mut * patient_features.TP53_mut) 1.0
  let apc_contrib := min (clinical_scale.APC_mut * nc.APC_mut * patient_features.APC_mut) 1.0
  let mmr_contrib := min (clinical_scale.MMR_defect * nc.MMR_defect * patient_features.MMR_defect) 1.0
  let log_alpha := log_alpha_base + bmi_contrib - sex_contrib + kras_contrib +
    tp53_contrib + apc_contrib + mmr_contrib
  let alpha := Real.exp log_alpha
  max (min alpha 5.0) 0.01

/-! ### Part 4: personalized and conditional risk (src/app.py lines 137-158) -/

/-- `personalized_risk` (src/app.py lines 137-147): `H = alpha * H0(age)`
clamped at 50, risk `1 - exp(-H)`. -/
def personalized_risk (age alpha : ℝ) : ℝ :=
  let H0 := baseline_hazard age
  let H := alpha * H0
  let Hc := if H > 50 then 50.0 else H
  1 - Real.exp (-Hc)

/-- `conditional_risk` (src/app.py lines 149-158). -/
def conditional_risk (age_now age_future alpha : ℝ) : ℝ :=
  let p_now := personalized_risk age_now alpha
  let p_future := personalized_risk age_future alpha
  if p_now ≥ 1.0 then 0.0
  else (p_future - p_now) / (1 - p_now)

/-! ### Part 5: SEER table and calibration (src/app.py lines 164-199)

The SEER CSV is loaded by excluded I/O code; each row carries an integer
"start-end" age band and a male and a female rate per 100,000. -/

structure SeerRow where
  start : ℤ
  stop : ℤ
  male_rate : ℝ
  female_rate : ℝ

/-- `get_seer_incidence` (src/app.py lines 166-176): scan rows in order,
return the first band whose inclusive range contains `age` (male column when
`sex_bin == 1`, female otherwise); `none` models the `ValueError` raised when
no band matches. -/
def get_seer_incidence : List SeerRow → ℝ → ℤ → Option ℝ
  | [], _, _ => none
  | row :: rest, age, sex_bin =>
    if (row.start : ℝ) ≤ age ∧ age ≤ (row.stop : ℝ) then
      some (if sex_bin = 1 then row.male_rate else row.female_rate)
    else
      get_seer_incidence rest age sex_bin

/-- The bisection loop of `calibrate_log_alpha` (src/app.py lines 189-199),
with the fuel counting the remaining iterations and `mid` holding the
midpoint of the most recent iteration (the value Python's trailing
`return mid` yields when the loop exhausts). -/
def calib_loop (age target_5yr : ℝ) : ℝ → ℝ → ℝ → ℕ → ℝ
  | _, _, mid, 0 => mid
  | low, high, _, k + 1 =>
    let mid := (low + high) / 2
    let alpha := Real.exp mid
    let model_5yr := conditional_risk age (age + 5) alpha
    if |model_5yr - target_5yr| < 1e-4 then mid
    else if model_5yr < target_5yr then calib_loop age target_5yr mid high mid k
    else calib_loop age target_5yr low mid mid k

/-- `calibrate_log_alpha` (src/app.py lines 178-199): the table lookup's
failure propagates (Python: the `ValueError` escapes), otherwise 100
bisection iterations on `[-5, 2]` against the 5-year SEER target. -/
def calibrate_log_alpha (table : List SeerRow) (age : ℝ) (sex_bin : ℤ) : Option ℝ :=
  (get_seer_incidence table age sex_bin).map fun incidence =>
    let target_5yr := 1 - Real.exp (-5 * incidence / 100000)
    calib_loop age target_5yr (-5) 2 0 100

/-! ### Part 8: the predict endpoint (src/app.py lines 255-283) -/

structure PatientInput where
  age : ℝ
  bmi : ℝ
  gender : String
  kras : ℤ
  apc : ℤ
  tp53 : ℤ
  mmr : ℤ

/-- The JSON payload returned by `/predict` (src/app.py lines 279-283). -/
structure Payload where
  risk_5yr_percent : ℝ
  risk_10yr_percent : ℝ
  alpha : ℝ

/-- Python's `round(x, n)`: round to `n` decimal places, ties to the even
neighbour (banker's rounding); away from a tie it is ordinary rounding to
nearest. -/
def pyround (x : ℝ) (n : ℕ) : ℝ :=
  let y := x * 10 ^ n
  let r : ℤ :=
    if y - ⌊y⌋ = 1 / 2 then (if Even ⌊y⌋ then ⌊y⌋ else ⌊y⌋ + 1)
    else round y
  (r : ℝ) / 10 ^ n

/-- `sex_bin = 1 if data.gender.lower() == "male" else 0` (src/app.py line 257). -/
def sex_bin_of (gender : String) : ℤ :=
  if gender.toLower = "male" then 1 else 0

/-- The patient feature dict built in `predict_risk` (src/app.py lines 259-266). -/
def features_of (data : PatientInput) : FeatureMap :=
  ⟨(data.tp53 : ℝ), (data.apc : ℝ), (data.mmr : ℝ), (data.kras : ℝ),
    data.bmi, ((sex_bin_of data.gender : ℤ) : ℝ)⟩

/-- `predict_risk` (src/app.py lines 255-283).  The lifetime risk
`personalized_risk 80 alpha` is computed but not placed in the payload; the
5- and 10-year risks are (redundantly) computed twice in the source with no
observable difference. -/
def predict_risk (coeff : FeatureMap) (table : List SeerRow)
    (data : PatientInput) : Option Payload :=
  let sex_bin := sex_bin_of data.gender
  let patient := features_of data
  (calibrate_log_alpha table data.age sex_bin).map fun log_alpha =>
    let alpha := compute_alpha coeff patient log_alpha
    let risk_5yr := conditional_risk data.age (data.age + 5) alpha
    let risk_10yr := conditional_risk data.age (data.age + 10) alpha
    let _lifetime_risk := personalized_risk 80 alpha
    ⟨pyround (risk_5yr * 100) 2, pyround (risk_10yr * 100) 2, pyround alpha 3⟩

/-! ### Claim-side description of the calibrator (spec section 4.3)

`bisection_spec` transcribes the spec's description of the calibration loop:
state is the triple (lower bound, upper bound, last midpoint); each iteration
takes the midpoint of the current interval, returns it immediately when the
model 5-year risk is within 1e-4 of the target, otherwise moves the lower
bound up when the model risk is below target and the upper bound down
otherwise; when the iteration budget is exhausted the last midpoint is
returned without signalling an error. -/
def bisection_spec (age target : ℝ) : ℕ → ℝ × ℝ × ℝ → ℝ
  | 0, (_, _, lastMid) => lastMid
  | k + 1, (low, high, _) =>
    let mid := (low + high) / 2
    if |conditional_risk age (age + 5) (Real.exp mid) - target| < 1e-4 then mid
    else if conditional_risk age (age + 5) (Real.exp mid) < target then
      bisection_spec age target k (mid, high, mid)
    else
      bisection_spec age target k (low, mid, mid)

end

/-! ### Helper lemmas -/

theorem A_pos : 0 < A := by
  simp only [A, c, c1, c2, N, r_APC, r_TP53, r_KRAS, n_APC, n_TP53, n_KRAS, u, r_LOH, b12, b1, b2]
  norm_num

theorem A_lb : (8.9e-14 : ℝ) < A := by
  simp only [A, c, c1, c2, N, r_APC, r_TP53, r_KRAS, n_APC, n_TP53, n_KRAS, u, r_LOH, b12, b1, b2]
  norm_num

theorem A_ub : A < 9e-14 := by
  simp only [A, c, c1, c2, N, r_APC, r_TP53, r_KRAS, n_APC, n_TP53, n_KRAS, u, r_LOH, b12, b1, b2]
  norm_num

theorem b12_eq : b12 = 0.27 := by
  simp only [b12, b1, b2]; norm_num

theorem baseline_hazard_eq_min (age : ℝ) :
    baseline_hazard age = min (A * age ^ 2 * Real.exp (b12 * age)) 50 := by
  simp only [baseline_hazard]
  split_ifs with h
  · rw [min_eq_right (le_of_lt h)]; norm_num
  · rw [min_eq_left (not_lt.mp h)]

theorem baseline_hazard_nonneg (age : ℝ) : 0 ≤ baseline_hazard age := by
  rw [baseline_hazard_eq_min]
  have h0 : (0:ℝ) ≤ A * age ^ 2 * Real.exp (b12 * age) := by
    have := A_pos
    positivity
  exact le_min h0 (by norm_num)

theorem baseline_hazard_le_fifty (age : ℝ) : baseline_hazard age ≤ 50 := by
  rw [baseline_hazard_eq_min]; exact min_le_right _ _

theorem baseline_hazard_mono {a b : ℝ} (ha : 0 ≤ a) (hab : a ≤ b) :
    baseline_hazard a ≤ baseline_hazard b := by
  rw [baseline_hazard_eq_min, baseline_hazard_eq_min]
  refine min_le_min ?_ le_rfl
  have hA := A_pos.le
  have hb12 : (0:ℝ) ≤ b12 := by rw [b12_eq]; norm_num
  have hsq : a ^ 2 ≤ b ^ 2 := by nlinarith
  have hexp : Real.exp (b12 * a) ≤ Real.exp (b12 * b) :=
    Real.exp_le_exp.mpr (by nlinarith)
  have h2 : (0:ℝ) < Real.exp (b12 * a) := Real.exp_pos _
  have k1 : A * a ^ 2 * Real.exp (b12 * a) ≤ A * b ^ 2 * Real.exp (b12 * a) :=
    mul_le_mul_of_nonneg_right (mul_le_mul_of_nonneg_left hsq hA) h2.le
  have k2 : A * b ^ 2 * Real.exp (b12 * a) ≤ A * b ^ 2 * Real.exp (b12 * b) :=
    mul_le_mul_of_nonneg_left hexp (mul_nonneg hA (sq_nonneg b))
  exact k1.trans k2

theorem baseline_hazard_pos {age : ℝ} (h : 0 < age) : 0 < baseline_hazard age := by
  rw [baseline_hazard_eq_min]
  refine lt_min ?_ (by norm_num)
  have := A_pos
  positivity

theorem baseline_hazard_zero : baseline_hazard 0 = 0 := by
  simp only [baseline_hazard]
  norm_num

theorem personalized_risk_eq (age alpha : ℝ) :
    personalized_risk age alpha =
      1 - Real.exp (-(min (alpha * baseline_hazard age) 50)) := by
  simp only [personalized_risk]
  split_ifs with h
  · rw [min_eq_right (le_of_lt h)]; norm_num
  · rw [min_eq_left (not_lt.mp h)]

theorem personalized_risk_lt_one (age alpha : ℝ) : personalized_risk age alpha < 1 := by
  rw [personalized_risk_eq]
  have := Real.exp_pos (-(min (alpha * baseline_hazard age) 50))
  linarith

theorem personalized_risk_nonneg {age alpha : ℝ} (h : 0 ≤ alpha) :
    0 ≤ personalized_risk age alpha := by
  rw [personalized_risk_eq]
  have hH : 0 ≤ min (alpha * baseline_hazard age) 50 :=
    le_min (mul_nonneg h (baseline_hazard_nonneg age)) (by norm_num)
  have : Real.exp (-(min (alpha * baseline_hazard age) 50)) ≤ 1 := by
    rw [← Real.exp_zero]
    exact Real.exp_le_exp.mpr (by linarith)
  linarith

theorem personalized_risk_mono_age {a b alpha : ℝ} (hα : 0 ≤ alpha)
    (ha : 0 ≤ a) (hab : a ≤ b) :
    personalized_risk a alpha ≤ personalized_risk b alpha := by
  rw [personalized_risk_eq, personalized_risk_eq]
  have hH : min (alpha * baseline_hazard a) 50 ≤ min (alpha * baseline_hazard b) 50 :=
    min_le_min (mul_le_mul_of_nonneg_left (baseline_hazard_mono ha hab) hα) le_rfl
  have := Real.exp_le_exp.mpr (neg_le_neg hH)
  linarith

theorem conditional_risk_eq (a b alpha : ℝ) :
    conditional_risk a b alpha =
      (personalized_risk b alpha - personalized_risk a alpha) /
        (1 - personalized_risk a alpha) := by
  have h := personalized_risk_lt_one a alpha
  simp only [conditional_risk]
  rw [if_neg (show ¬ personalized_risk a alpha ≥ 1.0 by push_neg; norm_num; linarith)]

theorem conditional_risk_no_clamp {a b alpha : ℝ}
    (h1 : alpha * baseline_hazard a ≤ 50) (h2 : alpha * baseline_hazard b ≤ 50) :
    conditional_risk a b alpha =
      1 - Real.exp (alpha * baseline_hazard a - alpha * baseline_hazard b) := by
  rw [conditional_risk_eq, personalized_risk_eq, personalized_risk_eq,
    min_eq_left h1, min_eq_left h2]
  have hne : Real.exp (-(alpha * baseline_hazard a)) ≠ 0 := Real.exp_ne_zero _
  have hkey : Real.exp (alpha * baseline_hazard a - alpha * baseline_hazard b) *
      Real.exp (-(alpha * baseline_hazard a)) = Real.exp (-(alpha * baseline_hazard b)) := by
    rw [← Real.exp_add]; ring_nf
  field_simp
  nlinarith [hkey]

theorem exp_b12_lt : Real.exp b12 < 2.7182818286 := by
  have h1 : Real.exp b12 < Real.exp 1 := Real.exp_lt_exp.mpr (by rw [b12_eq]; norm_num)
  exact h1.trans Real.exp_one_lt_d9

theorem one_le_exp_b12 : (1:ℝ) ≤ Real.exp b12 :=
  Real.one_le_exp (by rw [b12_eq]; norm_num)

theorem exp_b12_two_lb : (1.54:ℝ) ≤ Real.exp (b12 * 2) := by
  have h : b12 * 2 = (0.54:ℝ) := by rw [b12_eq]; norm_num
  rw [h]
  have := Real.add_one_le_exp (0.54:ℝ)
  linarith

theorem exp_b12_two_ub : Real.exp (b12 * 2) < 2.7182818286 := by
  have h1 : Real.exp (b12 * 2) < Real.exp 1 := Real.exp_lt_exp.mpr (by rw [b12_eq]; norm_num)
  exact h1.trans Real.exp_one_lt_d9

theorem exp_27_lb : (4e11:ℝ) ≤ Real.exp 27 := by
  have hp : Real.exp 1 ^ (27:ℕ) = Real.exp ((27:ℕ):ℝ) := Real.exp_one_pow 27
  have hc : (((27:ℕ)):ℝ) = (27:ℝ) := by norm_num
  have h27 : ((2.7:ℝ)) ^ (27:ℕ) ≤ Real.exp 1 ^ (27:ℕ) := by
    apply pow_le_pow_left₀ (by norm_num)
    have := Real.exp_one_gt_d9
    linarith
  have hnum : (4e11:ℝ) ≤ ((2.7:ℝ)) ^ (27:ℕ) := by norm_num
  rw [hp, hc] at h27
  linarith

theorem bh_one : baseline_hazard 1 = A * Real.exp b12 := by
  rw [baseline_hazard_eq_min]
  have he : A * (1:ℝ) ^ 2 * Real.exp (b12 * 1) = A * Real.exp b12 := by
    rw [one_pow, mul_one, mul_one]
  rw [he]
  refine min_eq_left ?_
  nlinarith [A_ub, A_pos, exp_b12_lt, Real.exp_pos b12]

theorem bh_two : baseline_hazard 2 = A * 4 * Real.exp (b12 * 2) := by
  rw [baseline_hazard_eq_min]
  have he : A * (2:ℝ) ^ 2 * Real.exp (b12 * 2) = A * 4 * Real.exp (b12 * 2) := by
    norm_num
  rw [he]
  refine min_eq_left ?_
  nlinarith [A_ub, A_pos, exp_b12_two_ub, Real.exp_pos (b12 * 2)]

theorem bh_hundred : baseline_hazard 100 = 50 := by
  rw [baseline_hazard_eq_min]
  refine min_eq_right ?_
  have h27 : b12 * 100 = (27:ℝ) := by rw [b12_eq]; norm_num
  rw [h27]
  nlinarith [A_lb, exp_27_lb, A_pos, Real.exp_pos (27:ℝ)]

/-! ### Claim theorems -/

/-- Claim C6: for every age ≥ 0, `baseline_hazard` is non-negative,
non-decreasing in age, never exceeds 50.0, and `baseline_hazard 0 = 0`. -/
theorem baseline_hazard_props : ∀ a b : ℝ,
    (0 ≤ a → 0 ≤ baseline_hazard a ∧ baseline_hazard a ≤ 50) ∧
    (0 ≤ a → a ≤ b → baseline_hazard a ≤ baseline_hazard b) ∧
    baseline_hazard 0 = 0 := by
  intro a b
  exact ⟨fun _ => ⟨baseline_hazard_nonneg a, baseline_hazard_le_fifty a⟩,
    fun ha hab => baseline_hazard_mono ha hab,
    baseline_hazard_zero⟩

/-- Witness for C6 at ages 40 and 60. -/
theorem baseline_hazard_props_witness :
    (0 ≤ baseline_hazard 40 ∧ baseline_hazard 40 ≤ 50) ∧
    baseline_hazard 40 ≤ baseline_hazard 60 ∧ baseline_hazard 0 = 0 :=
  ⟨(baseline_hazard_props 40 60).1 (by norm_num),
    (baseline_hazard_props 40 60).2.1 (by norm_num) (by norm_num),
    (baseline_hazard_props 40 60).2.2⟩

/-- Claim C7: `conditional_risk age age alpha = 0` for every age ≥ 0 and
alpha > 0, and `conditional_risk a b alpha ≥ 0` whenever `b ≥ a ≥ 0`. -/
theorem conditional_risk_props : ∀ a b alpha : ℝ,
    (0 ≤ a → 0 < alpha → conditional_risk a a alpha = 0) ∧
    (0 ≤ a → a ≤ b → 0 < alpha → 0 ≤ conditional_risk a b alpha) := by
  intro a b alpha
  constructor
  · intro _ _
    rw [conditional_risk_eq, sub_self, zero_div]
  · intro ha hab hα
    rw [conditional_risk_eq]
    have h1 := personalized_risk_mono_age hα.le ha hab
    have h2 := personalized_risk_lt_one a alpha
    exact div_nonneg (by linarith) (by linarith)

/-- Witness for C7 at ages 50, 55 and alpha = 1. -/
theorem conditional_risk_props_witness :
    conditional_risk 50 50 1 = 0 ∧ 0 ≤ conditional_risk 50 55 1 :=
  ⟨(conditional_risk_props 50 55 1).1 (by norm_num) (by norm_num),
    (conditional_risk_props 50 55 1).2 (by norm_num) (by norm_num) (by norm_num)⟩

/-- Claim C3: for every patient feature set, every log-alpha base and every
coefficient table with a non-zero APC entry, `compute_alpha` lands in
[0.01, 5.0]. -/
theorem compute_alpha_clamped : ∀ (coeff pf : FeatureMap) (base : ℝ),
    coeff.APC_mut ≠ 0 →
    0.01 ≤ compute_alpha coeff pf base ∧ compute_alpha coeff pf base ≤ 5.0 := by
  intro coeff pf base _
  simp only [compute_alpha]
  exact ⟨le_max_right _ _, max_le (min_le_right _ _) (by norm_num)⟩

/-- Witness for C3 with the clinical-scale values used as both tables. -/
theorem compute_alpha_clamped_witness :
    0.01 ≤ compute_alpha clinical_scale clinical_scale 0 ∧
    compute_alpha clinical_scale clinical_scale 0 ≤ 5.0 :=
  compute_alpha_clamped clinical_scale clinical_scale 0 (by norm_num [clinical_scale])

/-- Counterexample to claim C5 as stated: at age 100 the baseline hazard is
already at the 50.0 cap, so `personalized_risk` is NOT strictly increasing in
alpha across the clamp regime: alphas 1 and 2 give the same risk. -/
theorem personalized_risk_strict_cex :
    (0:ℝ) < 100 ∧ (1:ℝ) < 2 ∧ personalized_risk 100 1 = personalized_risk 100 2 := by
  refine ⟨by norm_num, by norm_num, ?_⟩
  simp only [personalized_risk]
  rw [bh_hundred]
  norm_num

/-- Claim C5 (amended): `personalized_risk age alpha` lies in [0, 1) for
age ≥ 0 and alpha > 0, and for fixed age > 0 it is strictly increasing in
alpha as long as the scaled hazard stays within the 50.0 clamp
(`α2 * baseline_hazard age ≤ 50`); once the clamp engages the risk saturates
and strictness fails. -/
theorem personalized_risk_amended : ∀ age α1 α2 : ℝ,
    (0 ≤ age → 0 < α1 → 0 ≤ personalized_risk age α1 ∧ personalized_risk age α1 < 1) ∧
    (0 < age → 0 < α1 → α1 < α2 → α2 * baseline_hazard age ≤ 50 →
      personalized_risk age α1 < personalized_risk age α2) := by
  intro age α1 α2
  constructor
  · intro _ h1
    exact ⟨personalized_risk_nonneg h1.le, personalized_risk_lt_one age α1⟩
  · intro hage h1 h12 hclamp
    have hbh := baseline_hazard_pos hage
    have hH1 : α1 * baseline_hazard age < α2 * baseline_hazard age :=
      mul_lt_mul_of_pos_right h12 hbh
    have hle1 : α1 * baseline_hazard age ≤ 50 := le_of_lt (lt_of_lt_of_le hH1 hclamp)
    rw [personalized_risk_eq, personalized_risk_eq, min_eq_left hle1, min_eq_left hclamp]
    have := Real.exp_lt_exp.mpr (neg_lt_neg hH1)
    linarith

/-- Witness for the amended C5 at age 1, alphas 1 and 2. -/
theorem personalized_risk_amended_witness :
    (0 ≤ personalized_risk 1 1 ∧ personalized_risk 1 1 < 1) ∧
    personalized_risk 1 1 < personalized_risk 1 2 := by
  have hcl : (2:ℝ) * baseline_hazard 1 ≤ 50 := by
    rw [bh_one]
    nlinarith [A_ub, A_pos, exp_b12_lt, Real.exp_pos b12]
  exact ⟨(personalized_risk_amended 1 1 2).1 (by norm_num) (by norm_num),
    (personalized_risk_amended 1 1 2).2 (by norm_num) (by norm_num) (by norm_num) hcl⟩

theorem H1_e14_lt : (1e14:ℝ) * (A * Real.exp b12) < 50 := by
  nlinarith [A_ub, A_pos, exp_b12_lt, Real.exp_pos b12]

theorem pr_one_e14 :
    personalized_risk 1 1e14 = 1 - Real.exp (-(1e14 * (A * Real.exp b12))) := by
  rw [personalized_risk_eq, bh_one, min_eq_left H1_e14_lt.le]

theorem pr_two_e14 : personalized_risk 2 1e14 = 1 - Real.exp (-(50:ℝ)) := by
  rw [personalized_risk_eq, bh_two]
  have hkey : (8.9e-14:ℝ) * 1.54 ≤ A * Real.exp (b12 * 2) :=
    mul_le_mul A_lb.le exp_b12_two_lb (by norm_num) A_pos.le
  rw [min_eq_right (by nlinarith)]

theorem pr_one_e15 : personalized_risk 1 1e15 = 1 - Real.exp (-(50:ℝ)) := by
  rw [personalized_risk_eq, bh_one]
  have hkey : (8.9e-14:ℝ) * 1 ≤ A * Real.exp b12 :=
    mul_le_mul A_lb.le one_le_exp_b12 (by norm_num) A_pos.le
  rw [min_eq_right (by nlinarith)]

theorem pr_two_e15 : personalized_risk 2 1e15 = 1 - Real.exp (-(50:ℝ)) := by
  rw [personalized_risk_eq, bh_two]
  have hkey : (8.9e-14:ℝ) * 1.54 ≤ A * Real.exp (b12 * 2) :=
    mul_le_mul A_lb.le exp_b12_two_lb (by norm_num) A_pos.le
  rw [min_eq_right (by nlinarith)]

/-- Counterexample to claim C2 as stated: between ages 1 and 2, raising alpha
from 1e14 to 1e15 pushes both hazards onto the 50.0 cap and the conditional
risk drops from a positive value to 0 — monotonicity fails in the clamp
regime. -/
theorem conditional_risk_alpha_mono_cex :
    (0:ℝ) < 1e14 ∧ (1e14:ℝ) < 1e15 ∧
    conditional_risk 1 2 1e15 < conditional_risk 1 2 1e14 := by
  refine ⟨by norm_num, by norm_num, ?_⟩
  have hcr15 : conditional_risk 1 2 1e15 = 0 := by
    rw [conditional_risk_eq, pr_two_e15, pr_one_e15, sub_self, zero_div]
  have hcr14 : 0 < conditional_risk 1 2 1e14 := by
    rw [conditional_risk_eq, pr_two_e14, pr_one_e14]
    have hlt := H1_e14_lt
    have hnum : Real.exp (-(50:ℝ)) < Real.exp (-(1e14 * (A * Real.exp b12))) :=
      Real.exp_lt_exp.mpr (by linarith)
    have hpos : (0:ℝ) < Real.exp (-(1e14 * (A * Real.exp b12))) := Real.exp_pos _
    apply div_pos (by linarith) (by linarith)
  rw [hcr15]
  exact hcr14

/-- Claim C2 (amended): for fixed ages 0 ≤ ageNow ≤ ageFuture,
`conditional_risk` is monotonically non-decreasing in alpha over the alphas
whose scaled hazard at the future age stays within the 50.0 clamp
(`α2 * baseline_hazard ageFuture ≤ 50`); beyond the clamp monotonicity can
fail. -/
theorem conditional_risk_alpha_mono_amended : ∀ a b α1 α2 : ℝ,
    0 ≤ a → a ≤ b → 0 < α1 → α1 ≤ α2 → α2 * baseline_hazard b ≤ 50 →
    conditional_risk a b α1 ≤ conditional_risk a b α2 := by
  intro a b α1 α2 ha hab h1 h12 hclamp
  have hba := baseline_hazard_mono ha hab
  have hbnb := baseline_hazard_nonneg b
  have h2 : (0:ℝ) < α2 := lt_of_lt_of_le h1 h12
  have c1b : α1 * baseline_hazard b ≤ 50 :=
    le_trans (mul_le_mul_of_nonneg_right h12 hbnb) hclamp
  have c1a : α1 * baseline_hazard a ≤ 50 :=
    le_trans (mul_le_mul_of_nonneg_left hba h1.le) c1b
  have c2a : α2 * baseline_hazard a ≤ 50 :=
    le_trans (mul_le_mul_of_nonneg_left hba h2.le) hclamp
  rw [conditional_risk_no_clamp c1a c1b, conditional_risk_no_clamp c2a hclamp]
  have key : α2 * baseline_hazard a - α2 * baseline_hazard b ≤
      α1 * baseline_hazard a - α1 * baseline_hazard b := by nlinarith
  have := Real.exp_le_exp.mpr key
  linarith

/-- Witness for the amended C2 at ages 1, 2 and alphas 1, 2. -/
theorem conditional_risk_alpha_mono_amended_witness :
    conditional_risk 1 2 1 ≤ conditional_risk 1 2 2 := by
  have hcl : (2:ℝ) * baseline_hazard 2 ≤ 50 := by
    rw [bh_two]
    nlinarith [A_ub, A_pos, exp_b12_two_ub, Real.exp_pos (b12 * 2)]
  exact conditional_risk_alpha_mono_amended 1 2 1 2 (by norm_num) (by norm_num)
    (by norm_num) (by norm_num) hcl

/-- Counterexample to claim C4 as stated: the source divides each
coefficient's magnitude by the SIGNED APC coefficient, not by its magnitude.
With APC coefficient -1 and TP53 coefficient 2 the computed weight is -2, not
`|2| / |-1| = 2`, and it is negative. -/
theorem norm_coeff_magnitude_cex :
    ((⟨2, -1, 0, 0, 0, 0⟩ : FeatureMap).APC_mut ≠ 0) ∧
    (norm_coeff ⟨2, -1, 0, 0, 0, 0⟩).TP53_mut ≠ |(2:ℝ)| / |(-1:ℝ)| ∧
    ¬ 0 ≤ (norm_coeff ⟨2, -1, 0, 0, 0, 0⟩).TP53_mut := by
  refine ⟨by norm_num, ?_, ?_⟩ <;> simp only [norm_coeff] <;> norm_num

/-- Claim C4 (amended): the per-feature relative-importance weight equals
the feature coefficient's magnitude divided by the (signed) APC coefficient;
when the APC coefficient is positive this coincides with the magnitude ratio
and every weight is non-negative. -/
theorem norm_coeff_amended : ∀ t : FeatureMap, 0 < t.APC_mut →
    ((norm_coeff t).TP53_mut = |t.TP53_mut| / |t.APC_mut| ∧
      (norm_coeff t).APC_mut = |t.APC_mut| / |t.APC_mut| ∧
      (norm_coeff t).MMR_defect = |t.MMR_defect| / |t.APC_mut| ∧
      (norm_coeff t).KRAS_mut = |t.KRAS_mut| / |t.APC_mut| ∧
      (norm_coeff t).BMI = |t.BMI| / |t.APC_mut| ∧
      (norm_coeff t).Sex_bin = |t.Sex_bin| / |t.APC_mut|) ∧
    (0 ≤ (norm_coeff t).TP53_mut ∧ 0 ≤ (norm_coeff t).APC_mut ∧
      0 ≤ (norm_coeff t).MMR_defect ∧ 0 ≤ (norm_coeff t).KRAS_mut ∧
      0 ≤ (norm_coeff t).BMI ∧ 0 ≤ (norm_coeff t).Sex_bin) := by
  intro t ht
  have habs : |t.APC_mut| = t.APC_mut := abs_of_pos ht
  constructor
  · refine ⟨?_, ?_, ?_, ?_, ?_, ?_⟩ <;> simp only [norm_coeff, habs]
  · refine ⟨?_, ?_, ?_, ?_, ?_, ?_⟩ <;> simp only [norm_coeff] <;>
      exact div_nonneg (abs_nonneg _) ht.le

/-- Witness for the amended C4 with TP53 coefficient -3 and APC coefficient 2. -/
theorem norm_coeff_amended_witness :
    (norm_coeff ⟨-3, 2, 0, 0, 0, 0⟩).TP53_mut = |(-3:ℝ)| / |(2:ℝ)| ∧
    0 ≤ (norm_coeff ⟨-3, 2, 0, 0, 0, 0⟩).TP53_mut := by
  have h := norm_coeff_amended ⟨-3, 2, 0, 0, 0, 0⟩ (by norm_num)
  exact ⟨h.1.1, h.2.1⟩

theorem exp_tenth_lt_five : Real.exp ((1:ℝ)/10) < 5 := by
  have h := Real.exp_lt_exp.mpr (show (1:ℝ)/10 < 1 by norm_num)
  have := Real.exp_one_lt_d9
  linarith

theorem one_lt_exp_tenth : (1:ℝ) < Real.exp ((1:ℝ)/10) := by
  rw [← Real.exp_zero]
  exact Real.exp_lt_exp.mpr (by norm_num)

theorem compute_alpha_neg_ref_female :
    compute_alpha ⟨0, -1, 0, 0, 0, 1⟩ ⟨0, 0, 0, 0, 0, 0⟩ 0 = Real.exp ((1:ℝ)/10) := by
  simp only [compute_alpha, norm_coeff, clinical_scale]
  norm_num
  rw [min_eq_left exp_tenth_lt_five.le]
  rw [max_eq_left (by linarith [one_lt_exp_tenth] : (1:ℝ)/100 ≤ Real.exp ((1:ℝ)/10))]

theorem compute_alpha_neg_ref_male :
    compute_alpha ⟨0, -1, 0, 0, 0, 1⟩ ⟨0, 0, 0, 0, 0, 1⟩ 0 = 1 := by
  simp only [compute_alpha, norm_coeff, clinical_scale]
  norm_num

/-- Counterexample to claim C9 as stated: with a NEGATIVE APC coefficient the
normalized sex weight is negative, so the female "protective" adjustment
subtracts a negative quantity and the female alpha exceeds the male alpha. -/
theorem compute_alpha_sex_cex :
    ((⟨0, -1, 0, 0, 0, 1⟩ : FeatureMap).APC_mut ≠ 0) ∧
    ¬ (compute_alpha ⟨0, -1, 0, 0, 0, 1⟩ ⟨0, 0, 0, 0, 0, 0⟩ 0 ≤
        compute_alpha ⟨0, -1, 0, 0, 0, 1⟩ ⟨0, 0, 0, 0, 0, 1⟩ 0) := by
  refine ⟨by norm_num, ?_⟩
  rw [compute_alpha_neg_ref_female, compute_alpha_neg_ref_male]
  exact not_le.mpr one_lt_exp_tenth

/-- Claim C9 (amended): for a coefficient table whose APC entry is POSITIVE,
two feature sets identical except for the sex indicator give a female alpha
at most the male alpha. -/
theorem compute_alpha_sex_amended : ∀ (t fF fM : FeatureMap) (base : ℝ),
    0 < t.APC_mut → fF.Sex_bin = 0 → fM.Sex_bin = 1 →
    fF.BMI = fM.BMI → fF.KRAS_mut = fM.KRAS_mut → fF.TP53_mut = fM.TP53_mut →
    fF.APC_mut = fM.APC_mut → fF.MMR_defect = fM.MMR_defect →
    compute_alpha t fF base ≤ compute_alpha t fM base := by
  intro t fF fM base ht hF hM hBMI hK hT hA hMr
  simp only [compute_alpha]
  rw [hBMI, hK, hT, hA, hMr, hF, hM]
  rw [if_pos rfl, if_neg (by norm_num : ¬ (1:ℝ) = 0)]
  have hsex : 0 ≤ min (clinical_scale.Sex_bin * (norm_coeff t).Sex_bin) 0.3 := by
    refine le_min (mul_nonneg ?_ ?_) (by norm_num)
    · norm_num [clinical_scale]
    · exact div_nonneg (abs_nonneg _) ht.le
  apply max_le_max _ le_rfl
  apply min_le_min _ le_rfl
  apply Real.exp_le_exp.mpr
  linarith

/-- Witness for the amended C9 with the clinical-scale values as coefficient
table and a BMI-22 patient. -/
theorem compute_alpha_sex_amended_witness :
    compute_alpha ⟨0.5, 1.0, 1.0, 0.3, 0.2, 0.1⟩ ⟨0, 0, 0, 0, 22, 0⟩ 0 ≤
      compute_alpha ⟨0.5, 1.0, 1.0, 0.3, 0.2, 0.1⟩ ⟨0, 0, 0, 0, 22, 1⟩ 0 :=
  compute_alpha_sex_amended ⟨0.5, 1.0, 1.0, 0.3, 0.2, 0.1⟩ ⟨0, 0, 0, 0, 22, 0⟩
    ⟨0, 0, 0, 0, 22, 1⟩ 0 (by norm_num) rfl rfl rfl rfl rfl rfl rfl

theorem calib_loop_eq_spec (age t : ℝ) :
    ∀ (k : ℕ) (low high mid : ℝ),
      calib_loop age t low high mid k = bisection_spec age t k (low, high, mid) := by
  intro k
  induction k with
  | zero => intro low high mid; rfl
  | succ n ih =>
    intro low high mid
    simp only [calib_loop, bisection_spec]
    split_ifs
    · rfl
    · exact ih _ _ _
    · exact ih _ _ _

theorem bisection_spec_lastMid_irrel (age t : ℝ) :
    ∀ k : ℕ, k ≠ 0 → ∀ low high x y : ℝ,
      bisection_spec age t k (low, high, x) = bisection_spec age t k (low, high, y) := by
  intro k hk
  cases k with
  | zero => exact absurd rfl hk
  | succ n => intro low high x y; simp only [bisection_spec]

/-- Claim C1: for every age covered by the incidence table and sexBin in
{0, 1}, `calibrate_log_alpha` performs the bisection described by the spec on
the fixed interval [-5, 2] for at most 100 iterations: each iteration returns
the midpoint immediately when `|conditional_risk(age, age+5, exp mid) -
target| < 1e-4` with `target = 1 - exp(-5*rate/100000)`, otherwise moves the
lower bound up when the model risk is below target and the upper bound down
otherwise; after 100 iterations the last midpoint is returned with no error
(the result stays `some`). -/
theorem calibrate_log_alpha_bisection :
    ∀ (table : List SeerRow) (age : ℝ) (sex_bin : ℤ) (rate lm : ℝ),
      (sex_bin = 0 ∨ sex_bin = 1) →
      get_seer_incidence table age sex_bin = some rate →
      calibrate_log_alpha table age sex_bin =
        some (bisection_spec age (1 - Real.exp (-5 * rate / 100000)) 100 (-5, 2, lm)) := by
  intro table age sex_bin rate lm _ hget
  simp only [calibrate_log_alpha, hget, Option.map_some']
  refine congrArg some ?_
  rw [calib_loop_eq_spec]
  exact bisection_spec_lastMid_irrel age _ 100 (by norm_num) (-5) 2 0 lm

/-- Witness for C1 on a one-band table covering age 50. -/
theorem calibrate_log_alpha_bisection_witness :
    calibrate_log_alpha [⟨0, 200, 10, 20⟩] 50 0 =
      some (bisection_spec 50 (1 - Real.exp (-5 * 20 / 100000)) 100 (-5, 2, 0)) := by
  apply calibrate_log_alpha_bisection
  · exact Or.inl rfl
  · norm_num [get_seer_incidence]

theorem get_seer_incidence_none (age : ℝ) (sex_bin : ℤ) :
    ∀ table : List SeerRow,
      (∀ r ∈ table, ¬((r.start : ℝ) ≤ age ∧ age ≤ (r.stop : ℝ))) →
      get_seer_incidence table age sex_bin = none := by
  intro table
  induction table with
  | nil => intro _; rfl
  | cons r rest ih =>
    intro h
    simp only [get_seer_incidence]
    rw [if_neg (h r (List.mem_cons_self r rest))]
    exact ih fun r' hr' => h r' (List.mem_cons_of_mem r hr')

theorem get_seer_incidence_first_match (age : ℝ) (sex_bin : ℤ) (row : SeerRow)
    (post : List SeerRow) :
    ∀ pre : List SeerRow,
      (∀ r ∈ pre, ¬((r.start : ℝ) ≤ age ∧ age ≤ (r.stop : ℝ))) →
      (row.start : ℝ) ≤ age → age ≤ (row.stop : ℝ) →
      get_seer_incidence (pre ++ row :: post) age sex_bin =
        some (if sex_bin = 1 then row.male_rate else row.female_rate) := by
  intro pre
  induction pre with
  | nil =>
    intro _ h1 h2
    simp only [List.nil_append, get_seer_incidence]
    rw [if_pos ⟨h1, h2⟩]
  | cons r rest ih =>
    intro hpre h1 h2
    simp only [List.cons_append, get_seer_incidence]
    rw [if_neg (hpre r (List.mem_cons_self r rest))]
    exact ih (fun r' hr' => hpre r' (List.mem_cons_of_mem r hr')) h1 h2

/-- Claim C8: the lookup scans bands in table order and returns the first
band containing the age (male column for sexBin = 1, female otherwise); when
no band contains the age both the lookup and `calibrate_log_alpha` fail
(`none`), with no default value. -/
theorem seer_lookup_props :
    ∀ (pre post table : List SeerRow) (row : SeerRow) (age : ℝ) (sex_bin : ℤ),
      ((∀ r ∈ pre, ¬((r.start : ℝ) ≤ age ∧ age ≤ (r.stop : ℝ))) →
        (row.start : ℝ) ≤ age → age ≤ (row.stop : ℝ) →
        get_seer_incidence (pre ++ row :: post) age sex_bin =
          some (if sex_bin = 1 then row.male_rate else row.female_rate)) ∧
      ((∀ r ∈ table, ¬((r.start : ℝ) ≤ age ∧ age ≤ (r.stop : ℝ))) →
        get_seer_incidence table age sex_bin = none ∧
        calibrate_log_alpha table age sex_bin = none) := by
  intro pre post table row age sex_bin
  refine ⟨get_seer_incidence_first_match age sex_bin row post pre, ?_⟩
  intro htab
  have h0 := get_seer_incidence_none age sex_bin table htab
  exact ⟨h0, by simp only [calibrate_log_alpha, h0, Option.map_none']⟩

/-- Witness for C8: the second band matches age 15 and is selected with the
male column; age 150 escapes the single band and both lookup and calibration
fail. -/
theorem seer_lookup_props_witness :
    get_seer_incidence [⟨0, 10, 1, 2⟩, ⟨11, 20, 3, 4⟩] 15 1 = some 3 ∧
    get_seer_incidence [⟨0, 10, 1, 2⟩] 150 1 = none ∧
    calibrate_log_alpha [⟨0, 10, 1, 2⟩] 150 1 = none := by
  obtain ⟨h1, _⟩ := seer_lookup_props [⟨0, 10, 1, 2⟩] [] [] ⟨11, 20, 3, 4⟩ 15 1
  obtain ⟨_, h2⟩ := seer_lookup_props [] [] [⟨0, 10, 1, 2⟩] ⟨11, 20, 3, 4⟩ 150 1
  have hno : ∀ r ∈ [(⟨0, 10, 1, 2⟩ : SeerRow)], ¬((r.start : ℝ) ≤ 15 ∧ 15 ≤ (r.stop : ℝ)) := by
    intro r hr
    simp only [List.mem_singleton] at hr
    subst hr
    push_cast
    norm_num
  have hno150 : ∀ r ∈ [(⟨0, 10, 1, 2⟩ : SeerRow)], ¬((r.start : ℝ) ≤ 150 ∧ 150 ≤ (r.stop : ℝ)) := by
    intro r hr
    simp only [List.mem_singleton] at hr
    subst hr
    push_cast
    norm_num
  have hfirst := h1 hno (by push_cast; norm_num) (by push_cast; norm_num)
  have hnone := h2 hno150
  refine ⟨?_, hnone.1, hnone.2⟩
  simpa using hfirst

/-- Claim C10: when the patient's age is covered by the table, `/predict`
returns a payload of exactly three fields: the 5-year and 10-year conditional
risks times 100 rounded to 2 decimals and alpha rounded to 3 decimals; the
lifetime risk `personalized_risk 80 alpha` is computed in the handler but
does not appear in the payload. -/
theorem predict_risk_payload :
    ∀ (coeff : FeatureMap) (table : List SeerRow) (data : PatientInput) (log_alpha : ℝ),
      calibrate_log_alpha table data.age (sex_bin_of data.gender) = some log_alpha →
      predict_risk coeff table data =
        some ⟨pyround (conditional_risk data.age (data.age + 5)
                (compute_alpha coeff (features_of data) log_alpha) * 100) 2,
              pyround (conditional_risk data.age (data.age + 10)
                (compute_alpha coeff (features_of data) log_alpha) * 100) 2,
              pyround (compute_alpha coeff (features_of data) log_alpha) 3⟩ := by
  intro coeff table data log_alpha hcal
  simp only [predict_risk, hcal, Option.map_some']

/-- Witness for C10 on a one-band table covering age 50 with identical male
and female rates. -/
theorem predict_risk_payload_witness :
    predict_risk clinical_scale [⟨0, 200, 10, 10⟩] ⟨50, 22, "female", 0, 0, 0, 0⟩ =
      some ⟨pyround (conditional_risk 50 (50 + 5)
              (compute_alpha clinical_scale (features_of ⟨50, 22, "female", 0, 0, 0, 0⟩)
                (calib_loop 50 (1 - Real.exp (-5 * 10 / 100000)) (-5) 2 0 100)) * 100) 2,
            pyround (conditional_risk 50 (50 + 10)
              (compute_alpha clinical_scale (features_of ⟨50, 22, "female", 0, 0, 0, 0⟩)
                (calib_loop 50 (1 - Real.exp (-5 * 10 / 100000)) (-5) 2 0 100)) * 100) 2,
            pyround (compute_alpha clinical_scale (features_of ⟨50, 22, "female", 0, 0, 0, 0⟩)
              (calib_loop 50 (1 - Real.exp (-5 * 10 / 100000)) (-5) 2 0 100)) 3⟩ := by
  have hcal : calibrate_log_alpha [⟨0, 200, 10, 10⟩] (50:ℝ) (sex_bin_of "female") =
      some (calib_loop 50 (1 - Real.exp (-5 * 10 / 100000)) (-5) 2 0 100) := by
    simp only [calibrate_log_alpha]
    norm_num [get_seer_incidence, ite_self]
  exact predict_risk_payload clinical_scale [⟨0, 200, 10, 10⟩] ⟨50, 22, "female", 0, 0, 0, 0⟩
    (calib_loop 50 (1 - Real.exp (-5 * 10 / 100000)) (-5) 2 0 100) hcal

end CRC
